import Mathlib

/-
Verification development for the Gard Eau Arbres dataset analyzer
(backend/app/main.py).

The analyzer is the function `analyze_dataframe`, a pure function from a
pandas DataFrame to a summary-report dictionary.  We shallowly embed the
DataFrame fragment the analyzer touches and the pandas operations it calls
(isna, duplicated, describe, value_counts, nunique, corr, head/to_dict,
select_dtypes), and prove the specification claims about the embedding.

Modelling conventions, fixed once here:

* Python floats are modelled as exact rationals (ℚ); float NaN is a separate
  cell constructor `Cell.nan`, since pandas uses NaN as the missing-value
  marker inside float columns.  Python None is `Cell.none_`.
* Describe statistics that pandas returns as possibly-NaN floats are
  modelled by `PFloat` (a rational or NaN); the source helper `to_float`
  maps NaN to Python None (JSON null), which we model as `Option ℚ`.
* The standard deviation entry of `describe` is carried as the sample
  variance (the square of pandas' std, ddof = 1).  The encoding is faithful
  for every claim in scope: std is NaN exactly when the variance is NaN,
  and std = 0 exactly when the variance = 0.
* The Pearson correlation r of a pair of columns is carried as its signed
  square sq = sign(cov) * cov^2 / (varx * vary), a rational.  The map
  r ↦ sign(r) * r^2 is a strictly increasing bijection, so sq is an
  order-isomorphic encoding of r: sorting by descending abs(r) is sorting by
  descending abs(sq), and the source threshold abs(r) ≥ 0.5 is exactly
  abs(sq) ≥ 0.25.  r is NaN (pair skipped) iff a variance is zero or no
  complete observation exists, as in pandas `nancorr` with min_periods = 1.
* `memory_usage_bytes` is platform- and allocator-dependent and no claim
  mentions it, so it is left out of the embedded report.
* pandas behaviours relied on: `DataFrame.duplicated` returns an empty
  Boolean series on a frame that is empty in the pandas sense (any axis of
  length 0); `describe` on a 0-row numeric frame yields count 0 and NaN for
  the other statistics; `to_dict(orient="records")` on an R-row, 0-column
  frame yields R empty records; `astype("string")` maps None/NaN to the
  missing value NA and every other element to its str() image;
  `value_counts(dropna=False)` counts the missing group as well and sorts by
  descending count; `select_dtypes` preserves column order, numeric dtypes
  exclude bool, and the object/category/string selection excludes bool too.
-/

namespace GardEau

/-- One cell of a pandas DataFrame, restricted to the value kinds a Dataset
may hold: Python None, float NaN, booleans, integers, finite floats
(modelled as exact rationals) and strings. -/
inductive Cell where
  | none_ : Cell
  | nan : Cell
  | bool : Bool → Cell
  | int : Int → Cell
  | float : ℚ → Cell
  | str : String → Cell
deriving DecidableEq, Repr

/-- The pandas dtypes relevant to the analyzer. -/
inductive DType where
  | int64 : DType
  | float64 : DType
  | booleanDt : DType
  | objectDt : DType
  | categoryDt : DType
  | stringDt : DType
deriving DecidableEq, Repr

/-- A named, dtype-tagged column holding its cells top to bottom. -/
structure Column where
  name : String
  dtype : DType
  cells : List Cell
deriving DecidableEq, Repr

/-- A DataFrame: ordered columns plus an explicit row count (a pandas frame
can have rows but no columns, e.g. built from a list of empty records). -/
structure DataFrame where
  cols : List Column
  nrows : Nat
deriving DecidableEq, Repr

/-- The result of `pd.isna` on a cell: None and NaN are missing. -/
def isna : Cell → Bool
  | Cell.none_ => true
  | Cell.nan => true
  | _ => false

/-- Membership of a dtype in `select_dtypes(include=[np.number])`: the
numeric dtypes; pandas excludes bool from np.number selection. -/
def numericDtype : DType → Bool
  | DType.int64 => true
  | DType.float64 => true
  | _ => false

/-- Membership of a dtype in `select_dtypes(include=["object", "category",
"string"])`. -/
def categoricalDtype : DType → Bool
  | DType.objectDt => true
  | DType.categoryDt => true
  | DType.stringDt => true
  | _ => false

/-- Cells a column of the given dtype can actually store in pandas: int64
holds integers only (NaN is unrepresentable there), float64 holds finite
floats and NaN, bool holds booleans only, object and category hold
anything, string holds strings and the missing markers. -/
def cellOk : DType → Cell → Bool
  | DType.int64, Cell.int _ => true
  | DType.float64, Cell.float _ => true
  | DType.float64, Cell.nan => true
  | DType.booleanDt, Cell.bool _ => true
  | DType.objectDt, _ => true
  | DType.categoryDt, _ => true
  | DType.stringDt, Cell.str _ => true
  | DType.stringDt, Cell.none_ => true
  | DType.stringDt, Cell.nan => true
  | _, _ => false

/-- Well-formedness of a DataFrame: every column has exactly `nrows` cells,
each cell representable under the column dtype, and column names are
distinct (the spec data model takes names to be unique). -/
def DataFrame.WF (df : DataFrame) : Prop :=
  (∀ c ∈ df.cols, c.cells.length = df.nrows ∧ ∀ x ∈ c.cells, cellOk c.dtype x) ∧
    (df.cols.map Column.name).Nodup

instance (df : DataFrame) : Decidable df.WF := by
  unfold DataFrame.WF; infer_instance

/-- num_cols in the source: `df.shape[1]`. -/
def DataFrame.ncols (df : DataFrame) : Nat := df.cols.length

/-- The list `df.columns`. -/
def DataFrame.names (df : DataFrame) : List String := df.cols.map Column.name

/-- Row `i` of the frame as `to_dict(orient="records")` renders it: the
column names paired with the stored cell values, in column order.  Missing
cells keep their stored marker (NaN in a float column, None or NaN in an
object column); `to_dict` performs no missing-value conversion. -/
def DataFrame.record (df : DataFrame) (i : Nat) : List (String × Cell) :=
  df.cols.map (fun c => (c.name, c.cells.getD i Cell.none_))

/-- Row `i` as the tuple of its cells, the equality `duplicated` uses. -/
def DataFrame.row (df : DataFrame) (i : Nat) : List Cell :=
  df.cols.map (fun c => c.cells.getD i Cell.none_)

/-- All rows of the frame, top to bottom. -/
def DataFrame.rowList (df : DataFrame) : List (List Cell) :=
  (List.range df.nrows).map df.row

/-! Missing-value report (source lines 38-52). -/

/-- The per-column value `df.isna().sum()[column]`. -/
def missCount (c : Column) : Nat := (c.cells.filter isna).length

/-- One entry of the per-column missing map: count and percentage. -/
structure MissEntry where
  count : Nat
  pct : ℚ
deriving DecidableEq, Repr

/-! Duplicated rows (source line 55).  pandas `DataFrame.duplicated` first
returns an empty Boolean series when the frame is empty in the pandas sense
(`df.empty`, i.e. some axis has length 0); otherwise it marks each row that
equals an earlier row over all columns (keep="first": the first occurrence
is unmarked).  NaN cells compare equal to NaN for this purpose, which the
decidable equality on `Cell` reflects. -/

/-- The scan behind `duplicated`: walk the rows keeping the set of rows seen
so far, and count the rows already seen. -/
def dupScan {α : Type} [DecidableEq α] : List α → List α → Nat
  | _, [] => 0
  | seen, r :: rs => (if r ∈ seen then 1 else 0) + dupScan (r :: seen) rs

/-- The value `int(df.duplicated().sum()) if num_rows > 0 else 0`. -/
def duplicateRows (df : DataFrame) : Nat :=
  if 0 < df.nrows then
    if df.nrows = 0 ∨ df.ncols = 0 then 0 else dupScan [] df.rowList
  else 0

/-! Numeric summary (source lines 57-76): `describe` over the numeric
columns, then `to_float` on every statistic. -/

/-- A pandas float: a finite value (exact rational) or NaN. -/
inductive PFloat where
  | val : ℚ → PFloat
  | nan : PFloat
deriving DecidableEq, Repr

/-- The source helper `to_float`: NaN (`pd.isna`) becomes None (JSON null),
a finite float is returned as such. -/
def toFloat : PFloat → Option ℚ
  | PFloat.nan => none
  | PFloat.val q => some q

/-- Numeric reading of a cell as `describe` sees it: integers and finite
floats are values, NaN is dropped (describe works on non-NA values), and
nothing else can occur in a numeric column. -/
def toRatVal : Cell → Option ℚ
  | Cell.int i => some (i : ℚ)
  | Cell.float q => some q
  | _ => none

/-- The non-NA numeric values of a column, in order. -/
def numVals (c : Column) : List ℚ := c.cells.filterMap toRatVal

/-- Mean of the non-NA values; NaN when there are none. -/
def meanP (v : List ℚ) : PFloat :=
  if v.length = 0 then PFloat.nan else PFloat.val (v.sum / v.length)

/-- Sample variance (ddof = 1), the square of pandas' `std`; NaN when fewer
than two non-NA values exist, exactly when pandas' std is NaN. -/
def varP (v : List ℚ) : PFloat :=
  if v.length ≤ 1 then PFloat.nan
  else PFloat.val
    ((v.map (fun x => (x - v.sum / v.length) ^ 2)).sum / ((v.length : ℚ) - 1))

/-- Minimum of the non-NA values; NaN when there are none. -/
def minP : List ℚ → PFloat
  | [] => PFloat.nan
  | x :: xs => PFloat.val (xs.foldl min x)

/-- Maximum of the non-NA values; NaN when there are none. -/
def maxP : List ℚ → PFloat
  | [] => PFloat.nan
  | x :: xs => PFloat.val (xs.foldl max x)

/-- Linear-interpolation quantile over the sorted non-NA values, numpy's
default method used by `describe`; NaN on an empty list. -/
def quantileP (v : List ℚ) (q : ℚ) : PFloat :=
  match v with
  | [] => PFloat.nan
  | _ =>
    let s := List.insertionSort (fun a b => a ≤ b) v
    let pos : ℚ := q * ((v.length : ℚ) - 1)
    let i : Nat := ⌊pos⌋.toNat
    let lo := s.getD i 0
    let hi := s.getD (i + 1) lo
    PFloat.val (lo + (pos - (i : ℚ)) * (hi - lo))

/-- The eight statistics `describe` emits for a numeric column, keyed as in
the transposed describe frame; std is carried as the variance (see the file
header). -/
def describeCol (c : Column) : List (String × PFloat) :=
  let v := numVals c
  [("count", PFloat.val (v.length : ℚ)),
   ("mean", meanP v),
   ("std", varP v),
   ("min", minP v),
   ("25%", quantileP v (1/4)),
   ("50%", quantileP v (1/2)),
   ("75%", quantileP v (3/4)),
   ("max", maxP v)]

/-- The numeric columns, `df.select_dtypes(include=[np.number])`, keeping
the original column order. -/
def DataFrame.numericCols (df : DataFrame) : List Column :=
  df.cols.filter (fun c => numericDtype c.dtype)

/-- The numeric summary: one entry per numeric column, each statistic put
through `to_float` so NaN becomes null. -/
def numericSummary (df : DataFrame) : List (String × List (String × Option ℚ)) :=
  df.numericCols.map (fun c =>
    (c.name, (describeCol c).map (fun p => (p.1, toFloat p.2))))

/-! Categorical summary (source lines 78-93). -/

/-- A deterministic injective rendering of our finite-float carrier,
standing for Python str() on a float.  No claim depends on the exact text;
what matters is that distinct floats render distinctly. -/
def floatStr (q : ℚ) : String :=
  if q.den = 1 then toString q.num ++ ".0"
  else toString q.num ++ "/" ++ toString q.den

/-- A cell after `astype("string")`: missing markers go to the missing
value NA (here none), everything else to its str() image. -/
def cellToStr : Cell → Option String
  | Cell.none_ => none
  | Cell.nan => none
  | Cell.bool b => some (if b then "True" else "False")
  | Cell.int i => some (toString i)
  | Cell.float q => some (floatStr q)
  | Cell.str s => some s

/-- The distinct elements of a list in order of first occurrence. -/
def uniqFirst {α : Type} [DecidableEq α] : List α → List α
  | [] => []
  | x :: xs => x :: uniqFirst (xs.filter (fun y => y ≠ x))
termination_by l => l.length
decreasing_by
  simpa using Nat.lt_succ_of_le (List.length_filter_le _ _)

/-- The series `value_counts(dropna=False)`: each distinct value (the NA
group included) with its multiplicity, sorted by descending count.  pandas
leaves the order of equal counts unspecified but deterministic; we fix the
stable order by first occurrence. -/
def valueCounts (l : List (Option String)) : List (Option String × Nat) :=
  List.insertionSort (fun a b => b.2 ≤ a.2)
    ((uniqFirst l).map (fun v => (v, l.count v)))

/-- One entry of `top_values`. -/
structure TopValue where
  value : Option String
  count : Nat
  pct : ℚ
deriving DecidableEq, Repr

/-- The summary of one categorical column. -/
structure CatSummary where
  unique : Nat
  top_values : List TopValue
deriving DecidableEq, Repr

/-- The value `df[column].nunique(dropna=True)`: the number of distinct
non-missing original cells (before the string cast). -/
def nuniqueCol (c : Column) : Nat :=
  (uniqFirst (c.cells.filter (fun x => !isna x))).length

/-- The summary of one categorical column: `unique` and the first five
groups of the sorted value counts, with pct over max(num_rows, 1). -/
def catSummaryCol (nrows : Nat) (c : Column) : CatSummary :=
  let total : Nat := if nrows = 0 then 1 else nrows
  let tv := (valueCounts (c.cells.map cellToStr)).take 5
  { unique := nuniqueCol c
    top_values := tv.map (fun p =>
      { value := p.1, count := p.2, pct := (p.2 : ℚ) / (total : ℚ) * 100 }) }

/-- The categorical columns,
`df.select_dtypes(include=["object", "category", "string"])`, in order. -/
def DataFrame.categoricalCols (df : DataFrame) : List Column :=
  df.cols.filter (fun c => categoricalDtype c.dtype)

/-- The categorical summary: one entry per categorical column. -/
def categoricalSummary (df : DataFrame) : List (String × CatSummary) :=
  df.categoricalCols.map (fun c => (c.name, catSummaryCol df.nrows c))

/-! Correlations (source lines 95-110). -/

/-- Keep a row of a column pair only when both sides carry a value. -/
def bothVals : Option ℚ × Option ℚ → Option (ℚ × ℚ)
  | (some x, some y) => some (x, y)
  | _ => none

/-- The complete observations of a pair of columns: the rows where both
cells carry a numeric value, as pandas pairwise correlation uses. -/
def pairVals (a b : Column) : List (ℚ × ℚ) :=
  (a.cells.zip b.cells).filterMap (fun p => bothVals (toRatVal p.1, toRatVal p.2))

/-- The Pearson correlation of a pair, in the signed-square encoding (see
the file header): none exactly where pandas produces NaN (no complete
observation, or a zero variance — a single observation gives zero
variance), else sign(cov) * cov^2 / (varx * vary). -/
def corrPair (a b : Column) : Option ℚ :=
  let p := pairVals a b
  let n : ℚ := (p.length : ℚ)
  if p.length = 0 then none
  else
    let mx := (p.map Prod.fst).sum / n
    let my := (p.map Prod.snd).sum / n
    let vx := (p.map (fun t => (t.1 - mx) ^ 2)).sum
    let vy := (p.map (fun t => (t.2 - my) ^ 2)).sum
    let cov := (p.map (fun t => (t.1 - mx) * (t.2 - my))).sum
    if vx = 0 ∨ vy = 0 then none
    else some (cov * |cov| / (vx * vy))

/-- One entry of the correlation list; `corrSq` is the signed square of the
reported float `corr` (order-isomorphic encoding, file header). -/
structure CorrEntry where
  col_a : String
  col_b : String
  corrSq : ℚ
deriving DecidableEq, Repr

/-- All ordered position pairs i < j of a list, in the double-loop order of
the source. -/
def pairsUpper {α : Type} : List α → List (α × α)
  | [] => []
  | x :: xs => xs.map (fun y => (x, y)) ++ pairsUpper xs

/-- The correlation list: for ≥ 2 numeric columns, the defined pairwise
correlations, sorted by descending absolute value (Python's stable sort
with reverse=True is modelled by the stable insertion sort), filtered at
the 0.5 threshold (0.25 in the signed square encoding) and truncated to
20; empty otherwise. -/
def correlationsList (df : DataFrame) : List CorrEntry :=
  let ncols := df.numericCols
  if 2 ≤ ncols.length then
    let entries := (pairsUpper ncols).filterMap (fun p =>
      (corrPair p.1 p.2).map (fun r =>
        { col_a := p.1.name, col_b := p.2.name, corrSq := r }))
    (((List.insertionSort (fun e1 e2 => |e2.corrSq| ≤ |e1.corrSq|) entries).filter
        (fun e => decide ((1:ℚ)/4 ≤ |e.corrSq|))).take 20)
  else []

/-! Sample (source lines 112-115) and the assembled report. -/

/-- The value `df.head(5).to_dict(orient="records") if num_rows > 0 else
[]`: the first min(5, R) rows as records. -/
def sampleRecords (df : DataFrame) : List (List (String × Cell)) :=
  if 0 < df.nrows then (List.range (min 5 df.nrows)).map df.record else []

/-- The summary report returned by `analyze_dataframe` (dict keys become
fields; the platform-dependent memory_usage_bytes is out of scope). -/
structure Report where
  shape_rows : Nat
  shape_columns : Nat
  columns : List String
  missing_per_column : List (String × MissEntry)
  total_missing_cells : Nat
  missing_cells_pct : ℚ
  row_duplicates : Nat
  numeric_summary : List (String × List (String × Option ℚ))
  categorical_summary : List (String × CatSummary)
  correlations : List CorrEntry
  sample : List (List (String × Cell))
deriving DecidableEq, Repr

/-- The analyzer, source lines 29-132: a pure total function from a
DataFrame to its summary report. -/
def analyze_dataframe (df : DataFrame) : Report :=
  let missing :=
    if 0 < df.nrows ∧ 0 < df.ncols then
      (df.cols.map (fun c =>
          (c.name,
            ({ count := missCount c
               pct := (missCount c : ℚ) / (df.nrows : ℚ) * 100 } : MissEntry))),
        (df.cols.map missCount).sum,
        ((df.cols.map missCount).sum : ℚ) / ((df.nrows * df.ncols : Nat) : ℚ) * 100)
    else ([], 0, (0 : ℚ))
  { shape_rows := df.nrows
    shape_columns := df.ncols
    columns := df.names
    missing_per_column := missing.1
    total_missing_cells := missing.2.1
    missing_cells_pct := missing.2.2
    row_duplicates := duplicateRows df
    numeric_summary := numericSummary df
    categorical_summary := categoricalSummary df
    correlations := correlationsList df
    sample := sampleRecords df }

/-! The `/analyze/csv` handler (source lines 135-145). -/

/-- Outcome of an endpoint call: an HTTPException carrying a status code
and a detail message, or the analyzer's report. -/
inductive HttpResult where
  | httpError : Nat → String → HttpResult
  | ok : Report → HttpResult
deriving DecidableEq, Repr

/-- Python str.endswith for one suffix: the case-sensitive suffix test on
the sequences of code points. -/
def pyEndsWith (s suffix : String) : Bool := suffix.data.isSuffixOf s.data

/-- Model of the `/analyze/csv` handler.  CSV parsing is a library call
outside the analyzer; the handler is a function of the uploaded filename
and of the parse outcome (some frame, or none on a parse failure), so that
invocation of the analyzer shows up as dependence on that argument.
Python's `str.endswith((".csv", ".tsv"))` is the case-sensitive
disjunction of the two suffix tests. -/
def analyze_csv (filename : String) (parsed : Option DataFrame) : HttpResult :=
  if !(pyEndsWith filename ".csv" || pyEndsWith filename ".tsv") then
    HttpResult.httpError 400 "Only CSV/TSV files are supported"
  else
    match parsed with
    | none => HttpResult.httpError 400 "Failed to parse file"
    | some df => HttpResult.ok (analyze_dataframe df)

/-! Exception-explicit analyzer.  The spec calls the analyzer total over
every valid Dataset.  To make that a theorem rather than a triviality of
the embedding, this second version makes every spot where the Python code
could raise on an ill-formed frame explicit in the Except monad: reading a
cell past a column's length, and meeting a value a numeric column cannot
store.  Totality of the analyzer is then the statement that on well-formed
frames this version reaches `Except.ok` with the report of the total
function. -/

/-- Exception-explicit numeric reading of a cell in a numeric column. -/
def toRatValE : Cell → Except String (Option ℚ)
  | Cell.int i => Except.ok (some (i : ℚ))
  | Cell.float q => Except.ok (some q)
  | Cell.nan => Except.ok none
  | _ => Except.error "non-numeric cell in a numeric column"

/-- Exception-explicit `numVals`. -/
def numValsE (c : Column) : Except String (List ℚ) := do
  let l ← c.cells.mapM toRatValE
  pure (l.filterMap id)

/-- Exception-explicit cell access by row index. -/
def cellAtE (c : Column) (i : Nat) : Except String Cell :=
  match c.cells.get? i with
  | some v => Except.ok v
  | none => Except.error "row index out of range"

/-- Exception-explicit `DataFrame.record`. -/
def recordE (df : DataFrame) (i : Nat) : Except String (List (String × Cell)) :=
  df.cols.mapM (fun c => do
    let v ← cellAtE c i
    pure (c.name, v))

/-- Exception-explicit `DataFrame.row`. -/
def rowE (df : DataFrame) (i : Nat) : Except String (List Cell) :=
  df.cols.mapM (fun c => cellAtE c i)

/-- Exception-explicit `DataFrame.rowList`. -/
def rowListE (df : DataFrame) : Except String (List (List Cell)) :=
  (List.range df.nrows).mapM (rowE df)

/-- Exception-explicit `duplicateRows`. -/
def duplicateRowsE (df : DataFrame) : Except String Nat :=
  if 0 < df.nrows then
    if df.nrows = 0 ∨ df.ncols = 0 then Except.ok 0
    else do
      let rows ← rowListE df
      pure (dupScan [] rows)
  else Except.ok 0

/-- Exception-explicit `describeCol`. -/
def describeColE (c : Column) : Except String (List (String × PFloat)) := do
  let v ← numValsE c
  pure [("count", PFloat.val (v.length : ℚ)),
        ("mean", meanP v),
        ("std", varP v),
        ("min", minP v),
        ("25%", quantileP v (1/4)),
        ("50%", quantileP v (1/2)),
        ("75%", quantileP v (3/4)),
        ("max", maxP v)]

/-- Exception-explicit `numericSummary`. -/
def numericSummaryE (df : DataFrame) :
    Except String (List (String × List (String × Option ℚ))) :=
  df.numericCols.mapM (fun c => do
    let d ← describeColE c
    pure (c.name, d.map (fun p => (p.1, toFloat p.2))))

/-- Exception-explicit `pairVals`: the two columns must align. -/
def pairValsE (a b : Column) : Except String (List (ℚ × ℚ)) :=
  if a.cells.length ≠ b.cells.length then
    Except.error "misaligned columns"
  else do
    let l ← (a.cells.zip b.cells).mapM (fun p => do
      let x ← toRatValE p.1
      let y ← toRatValE p.2
      pure (x, y))
    pure (l.filterMap bothVals)

/-- Exception-explicit `corrPair`. -/
def corrPairE (a b : Column) : Except String (Option ℚ) := do
  let p ← pairValsE a b
  let n : ℚ := (p.length : ℚ)
  if p.length = 0 then pure none
  else
    let mx := (p.map Prod.fst).sum / n
    let my := (p.map Prod.snd).sum / n
    let vx := (p.map (fun t => (t.1 - mx) ^ 2)).sum
    let vy := (p.map (fun t => (t.2 - my) ^ 2)).sum
    let cov := (p.map (fun t => (t.1 - mx) * (t.2 - my))).sum
    if vx = 0 ∨ vy = 0 then pure none
    else pure (some (cov * |cov| / (vx * vy)))

/-- Exception-explicit `correlationsList`. -/
def correlationsListE (df : DataFrame) : Except String (List CorrEntry) :=
  let ncols := df.numericCols
  if 2 ≤ ncols.length then do
    let es ← (pairsUpper ncols).mapM (fun p => do
      let r ← corrPairE p.1 p.2
      pure (r.map (fun v =>
        ({ col_a := p.1.name, col_b := p.2.name, corrSq := v } : CorrEntry))))
    let entries := es.filterMap id
    pure (((List.insertionSort (fun e1 e2 => |e2.corrSq| ≤ |e1.corrSq|) entries).filter
        (fun e => decide ((1:ℚ)/4 ≤ |e.corrSq|))).take 20)
  else Except.ok []

/-- Exception-explicit `sampleRecords`. -/
def sampleRecordsE (df : DataFrame) : Except String (List (List (String × Cell))) :=
  if 0 < df.nrows then (List.range (min 5 df.nrows)).mapM (recordE df)
  else Except.ok []

/-- The analyzer with every potentially-raising step explicit. -/
def analyzeChecked (df : DataFrame) : Except String Report := do
  let dups ← duplicateRowsE df
  let nsum ← numericSummaryE df
  let corrs ← correlationsListE df
  let samp ← sampleRecordsE df
  let missing :=
    if 0 < df.nrows ∧ 0 < df.ncols then
      (df.cols.map (fun c =>
          (c.name,
            ({ count := missCount c
               pct := (missCount c : ℚ) / (df.nrows : ℚ) * 100 } : MissEntry))),
        (df.cols.map missCount).sum,
        ((df.cols.map missCount).sum : ℚ) / ((df.nrows * df.ncols : Nat) : ℚ) * 100)
    else ([], 0, (0 : ℚ))
  pure
    { shape_rows := df.nrows
      shape_columns := df.ncols
      columns := df.names
      missing_per_column := missing.1
      total_missing_cells := missing.2.1
      missing_cells_pct := missing.2.2
      row_duplicates := dups
      numeric_summary := nsum
      categorical_summary := categoricalSummary df
      correlations := corrs
      sample := samp }

/-! Concrete frames used by scenario claims, counterexamples and
witnesses. -/

/-- The spec scenario frame: columns a, b of int64 with rows (1,2), (1,2),
(3,4). -/
def dfDupScenario : DataFrame :=
  ⟨[⟨"a", DType.int64, [Cell.int 1, Cell.int 1, Cell.int 3]⟩,
    ⟨"b", DType.int64, [Cell.int 2, Cell.int 2, Cell.int 4]⟩], 3⟩

/-- The spec scenario frame: a single int64 column holding 5, 5, 5. -/
def dfConst5 : DataFrame :=
  ⟨[⟨"x", DType.int64, [Cell.int 5, Cell.int 5, Cell.int 5]⟩], 3⟩

/-- A frame with zero rows but a numeric and an object column, as
`pd.read_csv` produces for a header-only file. -/
def dfEmptyRows : DataFrame :=
  ⟨[⟨"a", DType.float64, []⟩, ⟨"b", DType.objectDt, []⟩], 0⟩

/-- A frame with two rows and no columns, as `pd.DataFrame` builds from a
list of two empty records. -/
def dfNoCols : DataFrame := ⟨[], 2⟩

/-- A one-row frame whose float column holds a missing value, stored as
NaN as pandas stores float missing values. -/
def dfNanSample : DataFrame := ⟨[⟨"a", DType.float64, [Cell.nan]⟩], 1⟩

/-- A frame with one object column holding x, x, missing, y. -/
def dfCatMiss : DataFrame :=
  ⟨[⟨"c", DType.objectDt,
     [Cell.str "x", Cell.str "x", Cell.nan, Cell.str "y"]⟩], 4⟩

/-- A frame mixing a boolean column with a numeric and an object column. -/
def dfBoolMix : DataFrame :=
  ⟨[⟨"flag", DType.booleanDt, [Cell.bool true, Cell.bool false]⟩,
    ⟨"n", DType.float64, [Cell.float 1, Cell.float 2]⟩,
    ⟨"m", DType.float64, [Cell.float 2, Cell.float 1]⟩,
    ⟨"s", DType.objectDt, [Cell.str "u", Cell.str "v"]⟩], 2⟩

/-! Claim C9: the csv endpoint rejects non-csv/tsv filenames before the
analyzer runs. -/

/-- Claim C9: for every upload whose filename fails the case-sensitive
`.csv`/`.tsv` suffix test, the `/analyze/csv` handler answers 400 with the
descriptive detail message, and the analyzer is never invoked — the
response does not depend on the parse outcome at all. -/
theorem claim9_csv_suffix_reject (filename : String)
    (h : ¬ (pyEndsWith filename ".csv" = true ∨ pyEndsWith filename ".tsv" = true)) :
    (∀ parsed, analyze_csv filename parsed =
      HttpResult.httpError 400 "Only CSV/TSV files are supported") ∧
    (∀ p p2, analyze_csv filename p = analyze_csv filename p2) := by
  rw [not_or] at h
  obtain ⟨h1, h2⟩ := h
  rw [Bool.not_eq_true] at h1 h2
  exact ⟨fun parsed => by simp [analyze_csv, h1, h2],
         fun p p2 => by simp [analyze_csv, h1, h2]⟩

/-- Witness for C9 at the spec scenario filename data.txt and at the
case-sensitivity example DATA.CSV. -/
theorem claim9_csv_suffix_reject_witness :
    analyze_csv "data.txt" (some dfDupScenario) =
      HttpResult.httpError 400 "Only CSV/TSV files are supported" ∧
    analyze_csv "DATA.CSV" none =
      HttpResult.httpError 400 "Only CSV/TSV files are supported" :=
  ⟨(claim9_csv_suffix_reject "data.txt" (by decide)).1 _,
   (claim9_csv_suffix_reject "DATA.CSV" (by decide)).1 _⟩

/-! Claim C2: the constant column 5, 5, 5.  The claim asserts a null
standard deviation; pandas computes std with ddof = 1, which on a constant
series of length 3 is sqrt(0/2) = 0.0, not NaN, so `to_float` keeps it as
0.0 and the report carries 0.0, not null.  (In the embedding std is
carried as the sample variance, and variance = 0 iff std = 0, variance
NaN iff std NaN.) -/

/-- Helper for C2: the numeric summary of the [5,5,5] frame fully
evaluated.  The three quantile positions 0.5, 1 and 1.5 all interpolate
inside the constant sorted list [5,5,5]. -/
theorem dfConst5_numeric_summary :
    (analyze_dataframe dfConst5).numeric_summary =
      [("x", [("count", some 3), ("mean", some 5), ("std", some 0),
              ("min", some 5), ("25%", some 5), ("50%", some 5),
              ("75%", some 5), ("max", some 5)])] := by
  simp only [analyze_dataframe, numericSummary, DataFrame.numericCols, dfConst5,
    List.filter, numericDtype, describeCol, numVals, List.filterMap, toRatVal,
    meanP, varP, minP, maxP, quantileP, toFloat, List.insertionSort,
    List.orderedInsert, List.map, List.sum_cons, List.sum_nil, List.length_cons,
    List.length_nil]
  norm_num [List.getD, toFloat]

/-- Counterexample to C2 as stated: on the [5,5,5] frame the std entry of
the numeric summary is some 0 (JSON 0.0), not none (JSON null). -/
theorem claim2_counterexample :
    ((analyze_dataframe dfConst5).numeric_summary.lookup "x").bind
      (fun m => m.lookup "std") = some (some 0) ∧
    ¬ (∃ m, ((analyze_dataframe dfConst5).numeric_summary.lookup "x" = some m ∧
        m.lookup "std" = some none)) := by
  rw [dfConst5_numeric_summary]
  refine ⟨by rfl, ?_⟩
  rintro ⟨m, hm, hstd⟩
  rw [show (List.lookup "x"
      [("x", [("count", some (3:ℚ)), ("mean", some 5), ("std", some 0),
              ("min", some 5), ("25%", some 5), ("50%", some 5),
              ("75%", some 5), ("max", some 5)])]) = some
      [("count", some (3:ℚ)), ("mean", some 5), ("std", some 0),
       ("min", some 5), ("25%", some 5), ("50%", some 5),
       ("75%", some 5), ("max", some 5)] from rfl] at hm
  cases hm
  simp [List.lookup] at hstd

/-- Claim C2 amended: on the [5,5,5] frame the numeric summary reports
std = 0.0 (the pandas ddof = 1 convention on a constant series of length
at least 2), with mean = 5.0 and min = max = 5.0. -/
theorem claim2_constant_column_stats :
    (analyze_dataframe dfConst5).numeric_summary.lookup "x" =
      some [("count", some 3), ("mean", some 5), ("std", some 0),
            ("min", some 5), ("25%", some 5), ("50%", some 5),
            ("75%", some 5), ("max", some 5)] := by
  rw [dfConst5_numeric_summary]; rfl

/-! Claim C7: the duplicate-row count. -/

/-- The duplicate count in the words of the claim: the number of row
indices whose row is an exact all-column duplicate of the row at some
earlier index (first occurrences not counted, subsequent ones counted). -/
def specRowDuplicates (df : DataFrame) : Nat :=
  (List.range df.nrows).countP
    (fun i => decide (∃ j ∈ List.range i, df.row j = df.row i))

/-- The seen-set scan of `duplicated` counts exactly the positions holding
an element of the initial seen set or a repeat of an earlier position. -/
theorem dupScan_eq_countP {α : Type} [DecidableEq α] (l : List α) :
    ∀ seen : List α, dupScan seen l =
      (List.range l.length).countP (fun i =>
        decide ((∃ s ∈ seen, l[i]? = some s) ∨ ∃ j ∈ List.range i, l[j]? = l[i]?)) := by
  induction l with
  | nil => intro seen; simp [dupScan]
  | cons x xs ih =>
    intro seen
    rw [List.length_cons, List.range_succ_eq_map, List.countP_cons, List.countP_map]
    have h0 : (decide ((∃ s ∈ seen, (x :: xs)[0]? = some s) ∨
        ∃ j ∈ List.range 0, (x :: xs)[j]? = (x :: xs)[0]?)) = decide (x ∈ seen) := by
      apply decide_eq_decide.mpr
      simp [eq_comm]
    have hshift : ∀ i ∈ List.range xs.length,
        (((fun i => decide ((∃ s ∈ seen, (x :: xs)[i]? = some s) ∨
            ∃ j ∈ List.range i, (x :: xs)[j]? = (x :: xs)[i]?)) ∘ Nat.succ) i = true) ↔
        ((fun i => decide ((∃ s ∈ x :: seen, xs[i]? = some s) ∨
            ∃ j ∈ List.range i, xs[j]? = xs[i]?)) i = true) := by
      intro i _
      simp only [Function.comp, decide_eq_true_eq, List.getElem?_cons_succ,
        List.mem_range]
      constructor
      · rintro (⟨s, hs, he⟩ | ⟨j, hj, he⟩)
        · exact Or.inl ⟨s, List.mem_cons_of_mem _ hs, he⟩
        · cases j with
          | zero =>
            rw [List.getElem?_cons_zero] at he
            exact Or.inl ⟨x, List.mem_cons_self _ _, he.symm⟩
          | succ k =>
            rw [List.getElem?_cons_succ] at he
            exact Or.inr ⟨k, Nat.lt_of_succ_lt_succ hj, he⟩
      · rintro (⟨s, hs, he⟩ | ⟨j, hj, he⟩)
        · rcases List.mem_cons.mp hs with rfl | hs
          · exact Or.inr ⟨0, Nat.succ_pos _, by rw [List.getElem?_cons_zero, he]⟩
          · exact Or.inl ⟨s, hs, he⟩
        · exact Or.inr ⟨j + 1, Nat.succ_lt_succ hj, by rw [List.getElem?_cons_succ, he]⟩
    rw [List.countP_congr hshift, h0, dupScan, ← ih (x :: seen)]
    by_cases hx : x ∈ seen <;> simp [hx, Nat.add_comm]

/-- On a frame with at least one column, `duplicated` realizes the
claimed earlier-duplicate count (both sides are 0 when there are no
rows). -/
theorem duplicateRows_eq_spec (df : DataFrame) (h : 0 < df.ncols) :
    duplicateRows df = specRowDuplicates df := by
  by_cases hr : 0 < df.nrows
  · have hnc : ¬ (df.nrows = 0 ∨ df.ncols = 0) := by
      rintro (h0 | h0)
      · omega
      · omega
    rw [duplicateRows, if_pos hr, if_neg hnc, specRowDuplicates,
      dupScan_eq_countP]
    have hlen : df.rowList.length = df.nrows := by
      simp [DataFrame.rowList]
    rw [hlen]
    apply List.countP_congr
    intro i hi
    simp only [decide_eq_true_eq]
    have hget : ∀ k, k < df.nrows → df.rowList[k]? = some (df.row k) := by
      intro k hk
      simp [DataFrame.rowList, List.getElem?_range, hk]
    have hi2 : i < df.nrows := List.mem_range.mp hi
    constructor
    · rintro (⟨s, hs, _⟩ | ⟨j, hj, he⟩)
      · exact absurd hs (List.not_mem_nil s)
      · have hj2 : j < i := List.mem_range.mp hj
        rw [hget j (Nat.lt_trans hj2 hi2), hget i hi2] at he
        exact ⟨j, hj, Option.some.inj he⟩
    · rintro ⟨j, hj, he⟩
      have hj2 : j < i := List.mem_range.mp hj
      refine Or.inr ⟨j, hj, ?_⟩
      rw [hget j (Nat.lt_trans hj2 hi2), hget i hi2, he]
  · have h0 : df.nrows = 0 := by omega
    rw [duplicateRows, if_neg hr, specRowDuplicates, h0]
    simp

/-- Counterexample to C7 as stated: a frame with two rows and no columns
(as built from two empty JSON records).  All-column equality over zero
columns makes row 1 a duplicate of row 0, so the claimed count is 1, but
pandas `duplicated` short-circuits on a frame with an empty axis and the
code reports 0. -/
theorem claim7_counterexample :
    (analyze_dataframe dfNoCols).row_duplicates = 0 ∧ specRowDuplicates dfNoCols = 1 := by
  constructor
  · decide
  · decide

/-- Claim C7 amended: on every frame with at least one column the reported
row_duplicates equals the number of rows that are exact all-column
duplicates of some earlier row (earlier occurrences uncounted), and it is
0 when R = 0; on the scenario frame with rows (1,2), (1,2), (3,4) the
count is 1 and the shape is 3 rows by 2 columns.  (When C = 0 and R > 0
the code reports 0 even though every row beyond the first is vacuously an
all-column duplicate; see the counterexample.) -/
theorem claim7_duplicate_count (df : DataFrame) (h : 0 < df.ncols) :
    (analyze_dataframe df).row_duplicates = specRowDuplicates df ∧
    (df.nrows = 0 → (analyze_dataframe df).row_duplicates = 0) ∧
    (analyze_dataframe dfDupScenario).row_duplicates = 1 ∧
    (analyze_dataframe dfDupScenario).shape_rows = 3 ∧
    (analyze_dataframe dfDupScenario).shape_columns = 2 := by
  refine ⟨?_, ?_, by decide, by decide, by decide⟩
  · show duplicateRows df = _
    exact duplicateRows_eq_spec df h
  · intro h0
    show duplicateRows df = 0
    rw [duplicateRows, h0]
    simp

/-- Witness for C7 at the scenario frame. -/
theorem claim7_duplicate_count_witness :
    (analyze_dataframe dfDupScenario).row_duplicates = specRowDuplicates dfDupScenario :=
  (claim7_duplicate_count dfDupScenario (by decide)).1

/-! Claim C1: the degenerate frames with no rows or no columns. -/

/-- Counterexample to C1 as stated: a zero-row frame with a float64 and an
object column (what `pd.read_csv` yields on a header-only file) satisfies
R = 0, yet its numeric and categorical summaries are not empty — `describe`
and `value_counts` still emit an entry per selected column. -/
theorem claim1_counterexample :
    (dfEmptyRows.nrows = 0 ∨ dfEmptyRows.ncols = 0) ∧
    (analyze_dataframe dfEmptyRows).numeric_summary ≠ [] ∧
    (analyze_dataframe dfEmptyRows).categorical_summary ≠ [] := by
  refine ⟨Or.inl rfl, ?_, ?_⟩
  · simp [analyze_dataframe, numericSummary, DataFrame.numericCols, dfEmptyRows,
      numericDtype]
  · simp [analyze_dataframe, categoricalSummary, DataFrame.categoricalCols,
      dfEmptyRows, categoricalDtype]

/-- Claim C1 amended: when R = 0 or C = 0 the missing aggregates are 0 with
an empty per-column map, row_duplicates is 0 and the sample holds
min(5, R) empty records (so it is [] whenever R = 0, but a 0-column frame
with R > 0 rows yields that many empty row objects); the numeric and
categorical summaries are empty exactly when no numeric (respectively
categorical) dtype column exists — with R = 0 they hold one entry per such
column, carrying count 0 and null statistics, respectively unique 0 and no
top values. -/
theorem claim1_empty_dataset_report (df : DataFrame) (hwf : df.WF)
    (h : df.nrows = 0 ∨ df.ncols = 0) :
    (analyze_dataframe df).missing_cells_pct = 0 ∧
    (analyze_dataframe df).missing_per_column = [] ∧
    (analyze_dataframe df).total_missing_cells = 0 ∧
    (analyze_dataframe df).row_duplicates = 0 ∧
    (analyze_dataframe df).sample = List.replicate (min 5 df.nrows) [] ∧
    (analyze_dataframe df).numeric_summary =
      df.numericCols.map (fun c => (c.name,
        [("count", some (0:ℚ)), ("mean", (none : Option ℚ)), ("std", none),
         ("min", none), ("25%", none), ("50%", none), ("75%", none),
         ("max", none)])) ∧
    (analyze_dataframe df).categorical_summary =
      df.categoricalCols.map (fun c =>
        (c.name, ({ unique := 0, top_values := [] } : CatSummary))) := by
  obtain ⟨hlen, _⟩ := hwf
  have hmiss : ¬ (0 < df.nrows ∧ 0 < df.ncols) := by
    rcases h with h0 | h0 <;> omega
  have hcellnil : ∀ c ∈ df.cols, c.cells = [] := by
    intro c hc
    rcases h with h0 | h0
    · have := (hlen c hc).1
      rw [h0] at this
      exact List.length_eq_zero.mp this
    · exact absurd (List.length_pos_of_mem hc)
        (by simp [DataFrame.ncols] at h0; simp [h0])
  refine ⟨?_, ?_, ?_, ?_, ?_, ?_, ?_⟩
  · simp [analyze_dataframe, hmiss]
  · simp [analyze_dataframe, hmiss]
  · simp [analyze_dataframe, hmiss]
  · show duplicateRows df = 0
    rcases h with h0 | h0
    · rw [duplicateRows, h0]; simp
    · rw [duplicateRows]
      by_cases hr : 0 < df.nrows
      · rw [if_pos hr, if_pos (Or.inr h0)]
      · rw [if_neg hr]
  · show sampleRecords df = _
    rcases h with h0 | h0
    · rw [sampleRecords, h0]; simp
    · have hcols : df.cols = [] := by
        simpa [DataFrame.ncols, List.length_eq_zero] using h0
      rw [sampleRecords]
      by_cases hr : 0 < df.nrows
      · rw [if_pos hr]
        simp [DataFrame.record, hcols, List.map_const, List.eq_replicate_iff]
      · rw [if_neg hr]
        have : df.nrows = 0 := by omega
        simp [this]
  · show numericSummary df = _
    rw [numericSummary]
    apply List.map_congr_left
    intro c hc
    have hnil := hcellnil c (List.mem_of_mem_filter hc)
    simp [describeCol, numVals, hnil, meanP, varP, minP, maxP, quantileP, toFloat]
  · show categoricalSummary df = _
    rw [categoricalSummary]
    apply List.map_congr_left
    intro c hc
    have hnil := hcellnil c (List.mem_of_mem_filter hc)
    simp [catSummaryCol, nuniqueCol, valueCounts, uniqFirst, hnil]

/-- Witness for C1 at the header-only frame. -/
theorem claim1_empty_dataset_report_witness :
    (analyze_dataframe dfEmptyRows).missing_cells_pct = 0 :=
  (claim1_empty_dataset_report dfEmptyRows (by decide) (Or.inl rfl)).1

/-! Claim C3: the sample block. -/

/-- Looking a column name up in an association list built over columns with
distinct names returns that column's image. -/
theorem lookup_map_name {β : Type} (f : Column → β) (l : List Column)
    (hnd : (l.map Column.name).Nodup) (c : Column) (hc : c ∈ l) :
    (l.map (fun d => (d.name, f d))).lookup c.name = some (f c) := by
  induction l with
  | nil => exact absurd hc (List.not_mem_nil c)
  | cons d t ih =>
    rw [List.map_cons] at hnd
    rcases List.mem_cons.mp hc with rfl | hct
    · simp
    · have hne : (c.name == d.name) = false := by
        apply beq_false_of_ne
        intro he
        exact (List.nodup_cons.mp hnd).1 (he ▸ List.mem_map_of_mem Column.name hct)
      rw [List.map_cons, List.lookup_cons, hne]
      exact ih (List.nodup_cons.mp hnd).2 hct

/-- Counterexample to C3 as stated: in a float64 column a missing cell is
stored as NaN, and `to_dict` keeps the stored value, so the sample record
carries NaN — which is not null (None); the response serializes it as a
NaN token, not as null. -/
theorem claim3_counterexample :
    (analyze_dataframe dfNanSample).sample = [[("a", Cell.nan)]] ∧
    isna Cell.nan = true ∧
    (analyze_dataframe dfNanSample).sample ≠ [[("a", Cell.none_)]] := by
  refine ⟨?_, rfl, ?_⟩ <;>
    simp [analyze_dataframe, sampleRecords, dfNanSample, DataFrame.record,
      List.range_succ]

/-- Claim C3 amended: the sample is the first min(5, R) rows in original
row order — empty when R = 0 — each row an object pairing the column names
(in column order) with the cells as stored; looking up any column's name in
sample row i yields exactly that column's cell i.  Missing cells keep the
stored missing marker (NaN in float columns), they are not uniformly
null. -/
theorem claim3_sample_first_rows (df : DataFrame) (hwf : df.WF) :
    (analyze_dataframe df).sample.length = min 5 df.nrows ∧
    (df.nrows = 0 → (analyze_dataframe df).sample = []) ∧
    (∀ i hi, (((analyze_dataframe df).sample.get ⟨i, hi⟩).map Prod.fst) = df.names) ∧
    (∀ i hi, ∀ c ∈ df.cols,
      ((analyze_dataframe df).sample.get ⟨i, hi⟩).lookup c.name = c.cells[i]?) := by
  obtain ⟨hlen, hnd⟩ := hwf
  have hsample : (analyze_dataframe df).sample =
      (List.range (min 5 df.nrows)).map df.record := by
    show sampleRecords df = _
    rw [sampleRecords]
    by_cases hr : 0 < df.nrows
    · rw [if_pos hr]
    · have h0 : df.nrows = 0 := by omega
      rw [if_neg hr, h0]
      simp
  have hget : ∀ i hi, (analyze_dataframe df).sample.get ⟨i, hi⟩ = df.record i := by
    intro i hi
    have hi2 : i < min 5 df.nrows := by
      simpa [hsample] using hi
    simp [hsample, List.get_eq_getElem]
  refine ⟨by simp [hsample], ?_, ?_, ?_⟩
  · intro h0
    rw [hsample, h0]
    simp
  · intro i hi
    rw [hget i hi, DataFrame.record, DataFrame.names, List.map_map]
    rfl
  · intro i hi c hc
    have hi2 : i < min 5 df.nrows := by
      simpa [hsample] using hi
    have hilt : i < c.cells.length := by
      rw [(hlen c hc).1]
      omega
    rw [hget i hi, DataFrame.record, lookup_map_name _ _ hnd c hc,
      List.getElem?_eq_getElem hilt, List.getD_eq_getElem _ _ hilt]

/-- Witness for C3 at the scenario frame. -/
theorem claim3_sample_first_rows_witness :
    (analyze_dataframe dfDupScenario).sample.length = min 5 dfDupScenario.nrows :=
  (claim3_sample_first_rows dfDupScenario (by decide)).1

/-! Claim C6: the missing-value report on non-degenerate frames. -/

/-- Claim C6: with R > 0 and C > 0 the per-column missing map assigns each
column its missing-cell count (at most R) and the percentage
100 * count / R; the total is the sum of the per-column counts and the
aggregate percentage is 100 * total / (R * C). -/
theorem claim6_missing_report (df : DataFrame) (hwf : df.WF)
    (hr : 0 < df.nrows) (hc : 0 < df.ncols) :
    (∀ p ∈ (analyze_dataframe df).missing_per_column,
        p.2.count ≤ df.nrows ∧ p.2.pct = 100 * (p.2.count : ℚ) / (df.nrows : ℚ)) ∧
    (∀ c ∈ df.cols, (analyze_dataframe df).missing_per_column.lookup c.name =
        some { count := (c.cells.filter isna).length
               pct := ((c.cells.filter isna).length : ℚ) / (df.nrows : ℚ) * 100 }) ∧
    (analyze_dataframe df).total_missing_cells =
      ((analyze_dataframe df).missing_per_column.map (fun p => p.2.count)).sum ∧
    (analyze_dataframe df).missing_cells_pct =
      100 * ((analyze_dataframe df).total_missing_cells : ℚ) /
        ((df.nrows : ℚ) * (df.ncols : ℚ)) := by
  obtain ⟨hlen, hnd⟩ := hwf
  have hper : (analyze_dataframe df).missing_per_column =
      df.cols.map (fun c => (c.name,
        ({ count := missCount c
           pct := (missCount c : ℚ) / (df.nrows : ℚ) * 100 } : MissEntry))) := by
    simp [analyze_dataframe, if_pos (And.intro hr hc)]
  have htot : (analyze_dataframe df).total_missing_cells =
      (df.cols.map missCount).sum := by
    simp [analyze_dataframe, if_pos (And.intro hr hc)]
  have hpct : (analyze_dataframe df).missing_cells_pct =
      ((df.cols.map missCount).sum : ℚ) / ((df.nrows * df.ncols : Nat) : ℚ) * 100 := by
    simp [analyze_dataframe, if_pos (And.intro hr hc)]
  refine ⟨?_, ?_, ?_, ?_⟩
  · intro p hp
    rw [hper] at hp
    obtain ⟨c, hcmem, rfl⟩ := List.mem_map.mp hp
    constructor
    · have : (c.cells.filter isna).length ≤ c.cells.length :=
        List.length_filter_le _ _
      calc missCount c ≤ c.cells.length := this
        _ = df.nrows := (hlen c hcmem).1
    · show (missCount c : ℚ) / (df.nrows : ℚ) * 100 = _
      ring
  · intro c hc2
    rw [hper]
    exact lookup_map_name _ df.cols hnd c hc2
  · rw [htot, hper, List.map_map]
    rfl
  · rw [hpct, htot, Nat.cast_mul]
    ring

/-- Witness for C6 at the categorical frame with one missing cell. -/
theorem claim6_missing_report_witness :
    (analyze_dataframe dfCatMiss).total_missing_cells =
      ((analyze_dataframe dfCatMiss).missing_per_column.map (fun p => p.2.count)).sum :=
  (claim6_missing_report dfCatMiss (by decide) (by decide) (by decide)).2.2.1

/-! Shared facts about the correlation pipeline. -/

/-- Every pair produced by the upper-triangle double loop is an ordered
two-element sublist of the underlying list. -/
theorem pairsUpper_sublist {α : Type} (l : List α) :
    ∀ p ∈ pairsUpper l, List.Sublist [p.1, p.2] l := by
  induction l with
  | nil => intro p hp; simp [pairsUpper] at hp
  | cons x xs ih =>
    intro p hp
    rw [pairsUpper, List.mem_append] at hp
    rcases hp with hp | hp
    · obtain ⟨y, hy, rfl⟩ := List.mem_map.mp hp
      exact List.Sublist.cons₂ x (List.singleton_sublist.mpr hy)
    · exact List.Sublist.cons x (ih p hp)

/-- Every entry of the correlation list originates in an upper-triangle
pair of numeric columns whose names it carries, with a defined pairwise
correlation. -/
theorem correlations_mem_source (df : DataFrame) :
    ∀ e ∈ (analyze_dataframe df).correlations, ∃ p ∈ pairsUpper df.numericCols,
      e.col_a = p.1.name ∧ e.col_b = p.2.name ∧ corrPair p.1 p.2 = some e.corrSq := by
  intro e he
  have he2 : e ∈ correlationsList df := he
  rw [correlationsList] at he2
  by_cases h2 : 2 ≤ df.numericCols.length
  · rw [if_pos h2] at he2
    have he3 := List.mem_of_mem_filter (List.mem_of_mem_take he2)
    rw [List.mem_insertionSort] at he3
    obtain ⟨p, hp, hF⟩ := List.mem_filterMap.mp he3
    obtain ⟨r, hr, hmk⟩ := Option.map_eq_some'.mp hF
    exact ⟨p, hp, by rw [← hmk], by rw [← hmk], by rw [hr, ← hmk]⟩
  · rw [if_neg h2] at he2
    exact absurd he2 (List.not_mem_nil e)

/-! Claim C10: boolean columns are excluded from both summaries and from
the correlations. -/

/-- Claim C10: a boolean-dtype column appears in neither the numeric nor
the categorical summary, and its name never occurs in a correlation
entry — `select_dtypes(np.number)` and the object/category/string
selection both exclude bool. -/
theorem claim10_bool_excluded (df : DataFrame) (hwf : df.WF)
    (c : Column) (hc : c ∈ df.cols) (hb : c.dtype = DType.booleanDt) :
    (∀ p ∈ (analyze_dataframe df).numeric_summary, p.1 ≠ c.name) ∧
    (∀ p ∈ (analyze_dataframe df).categorical_summary, p.1 ≠ c.name) ∧
    (∀ e ∈ (analyze_dataframe df).correlations,
      e.col_a ≠ c.name ∧ e.col_b ≠ c.name) := by
  have hinj := List.inj_on_of_nodup_map hwf.2
  have hname : ∀ d ∈ df.cols, numericDtype d.dtype = true ∨
      categoricalDtype d.dtype = true → d.name ≠ c.name := by
    intro d hd hdt he
    have hdc : d = c := hinj hd hc he
    rw [hdc, hb] at hdt
    simp [numericDtype, categoricalDtype] at hdt
  have hnum : ∀ d ∈ df.numericCols, d.name ≠ c.name := by
    intro d hd
    have hm := List.mem_filter.mp hd
    exact hname d hm.1 (Or.inl hm.2)
  refine ⟨?_, ?_, ?_⟩
  · intro p hp
    obtain ⟨d, hd, rfl⟩ := List.mem_map.mp hp
    exact hnum d hd
  · intro p hp
    obtain ⟨d, hd, rfl⟩ := List.mem_map.mp hp
    have hm := List.mem_filter.mp hd
    exact hname d hm.1 (Or.inr hm.2)
  · intro e he
    obtain ⟨p, hp, ha, hb2, _⟩ := correlations_mem_source df e he
    have hsub := pairsUpper_sublist df.numericCols p hp
    have h1 : p.1 ∈ df.numericCols := hsub.subset (by simp)
    have h2 : p.2 ∈ df.numericCols := hsub.subset (by simp)
    exact ⟨ha ▸ hnum p.1 h1, hb2 ▸ hnum p.2 h2⟩

/-- Witness for C10 at the mixed frame with a boolean column. -/
theorem claim10_bool_excluded_witness :
    ((analyze_dataframe dfBoolMix).numeric_summary.map Prod.fst).count "flag" = 0 := by
  have h := (claim10_bool_excluded dfBoolMix (by decide)
    ⟨"flag", DType.booleanDt, [Cell.bool true, Cell.bool false]⟩
    (by decide) rfl).1
  rw [List.count_eq_zero]
  intro hmem
  obtain ⟨p, hp, he⟩ := List.mem_map.mp hmem
  exact h p hp he

/-! Claim C4: invariants of the correlation list. -/

/-- A filterMap whose hits project like a total map yields a projected
sublist of that map. -/
theorem filterMap_map_sublist {α β γ : Type} (F : α → Option β) (g : β → γ)
    (h : α → γ) (hcomp : ∀ a b, F a = some b → g b = h a) :
    ∀ l : List α, List.Sublist ((l.filterMap F).map g) (l.map h) := by
  intro l
  induction l with
  | nil => simp
  | cons x xs ih =>
    rw [List.filterMap_cons, List.map_cons]
    cases hFx : F x with
    | none => exact List.Sublist.cons (h x) ih
    | some b =>
      rw [List.map_cons, hcomp x b hFx]
      exact List.Sublist.cons₂ (h x) ih

/-- Over a list with distinct keys, the upper-triangle pairs have
pairwise-distinct key pairs. -/
theorem pairsUpper_keyPairs_nodup {α β : Type} [DecidableEq β] (nm : α → β) :
    ∀ l : List α, (l.map nm).Nodup →
      ((pairsUpper l).map (fun p => (nm p.1, nm p.2))).Nodup := by
  intro l
  induction l with
  | nil => intro _; simp [pairsUpper]
  | cons x xs ih =>
    intro hnd
    rw [List.map_cons, List.nodup_cons] at hnd
    rw [pairsUpper, List.map_append]
    rw [List.nodup_append]
    refine ⟨?_, ih hnd.2, ?_⟩
    · have hmm : (xs.map (fun y => (x, y))).map (fun p => (nm p.1, nm p.2)) =
          (xs.map nm).map (fun b => (nm x, b)) := by
        rw [List.map_map, List.map_map]
        rfl
      rw [hmm]
      exact hnd.2.map (fun b1 b2 he => (Prod.mk.injEq _ _ _ _).mp he |>.2)
    · intro q hq1 hq2
      obtain ⟨p1, hp1, rfl⟩ := List.mem_map.mp hq1
      obtain ⟨y, hy, rfl⟩ := List.mem_map.mp hp1
      obtain ⟨p2, hp2, hqe⟩ := List.mem_map.mp hq2
      have h1 : p2.1 ∈ xs :=
        (pairsUpper_sublist xs p2 hp2).subset (by simp)
      apply hnd.1
      have : nm p2.1 = nm x := by
        have := congrArg Prod.fst hqe
        simpa using this
      rw [← this]
      exact List.mem_map_of_mem nm h1

/-- In a duplicate-free list, a two-element sublist fixes the strict order
of the indices of its elements. -/
theorem sublist_pair_indexOf_lt {α : Type} [DecidableEq α] :
    ∀ (l : List α), l.Nodup → ∀ a b, List.Sublist [a, b] l →
      l.indexOf a < l.indexOf b := by
  intro l
  induction l with
  | nil => intro _ a b hs; cases hs
  | cons x xs ih =>
    intro hnd a b hs
    rw [List.nodup_cons] at hnd
    cases hs with
    | cons _ hs2 =>
      have ha : a ∈ xs := hs2.subset (by simp)
      have hb : b ∈ xs := hs2.subset (by simp)
      have hax : x ≠ a := fun he => hnd.1 (he ▸ ha)
      have hbx : x ≠ b := fun he => hnd.1 (he ▸ hb)
      rw [List.indexOf_cons_ne _ hax, List.indexOf_cons_ne _ hbx]
      exact Nat.succ_lt_succ (ih hnd.2 a b hs2)
    | cons₂ _ hs2 =>
      have hb : b ∈ xs := hs2.subset (by simp)
      have hxb : x ≠ b := fun he => hnd.1 (he ▸ hb)
      rw [List.indexOf_cons_self, List.indexOf_cons_ne _ hxb]
      exact Nat.succ_pos _

/-- The numeric column names, in order, form a duplicate-free sublist of
the frame's column names when the frame is well-formed. -/
theorem numericCols_names_sublist (df : DataFrame) :
    List.Sublist (df.numericCols.map Column.name) df.names :=
  (List.filter_sublist df.cols).map Column.name

/-- Claim C4: the correlation list is empty unless at least two numeric
columns exist; every entry passes the absolute threshold (0.25 on the
signed-square encoding of the Pearson r, i.e. abs(r) ≥ 0.5, stated also on
the sqrt scale); at most 20 entries; sorted by descending absolute value;
no ordered pair occurs twice, no pair occurs in both orders, no self
pairs; and col_a precedes col_b in the original column order. -/
theorem claim4_correlations_invariant (df : DataFrame) (hwf : df.WF) :
    (df.numericCols.length < 2 → (analyze_dataframe df).correlations = []) ∧
    (∀ e ∈ (analyze_dataframe df).correlations,
      (1:ℚ)/4 ≤ |e.corrSq| ∧ (1:ℝ)/2 ≤ Real.sqrt |(e.corrSq : ℝ)|) ∧
    (analyze_dataframe df).correlations.length ≤ 20 ∧
    (analyze_dataframe df).correlations.Pairwise
      (fun e1 e2 => |e2.corrSq| ≤ |e1.corrSq|) ∧
    ((analyze_dataframe df).correlations.map (fun e => (e.col_a, e.col_b))).Nodup ∧
    (∀ e ∈ (analyze_dataframe df).correlations,
      ∀ e2 ∈ (analyze_dataframe df).correlations,
        ¬ (e2.col_a = e.col_b ∧ e2.col_b = e.col_a)) ∧
    (∀ e ∈ (analyze_dataframe df).correlations,
      e.col_a ≠ e.col_b ∧ df.names.indexOf e.col_a < df.names.indexOf e.col_b) := by
  have hnamesnd : df.names.Nodup := hwf.2
  have horder : ∀ e ∈ (analyze_dataframe df).correlations,
      List.Sublist [e.col_a, e.col_b] df.names := by
    intro e he
    obtain ⟨p, hp, ha, hb, _⟩ := correlations_mem_source df e he
    have h1 := (pairsUpper_sublist df.numericCols p hp).map Column.name
    rw [ha, hb]
    exact (List.map_cons Column.name p.1 [p.2] ▸ h1).trans (numericCols_names_sublist df)
  have hidx : ∀ e ∈ (analyze_dataframe df).correlations,
      df.names.indexOf e.col_a < df.names.indexOf e.col_b := by
    intro e he
    exact sublist_pair_indexOf_lt df.names hnamesnd _ _ (horder e he)
  refine ⟨?_, ?_, ?_, ?_, ?_, ?_, ?_⟩
  · intro h2
    show correlationsList df = []
    rw [correlationsList]
    rw [if_neg (by omega)]
  · intro e he
    have he2 : e ∈ correlationsList df := he
    rw [correlationsList] at he2
    by_cases h2 : 2 ≤ df.numericCols.length
    · rw [if_pos h2] at he2
      have := List.mem_filter.mp (List.mem_of_mem_take he2)
      have hq : (1:ℚ)/4 ≤ |e.corrSq| := by
        have := this.2
        simpa using this
      refine ⟨hq, ?_⟩
      have hcast : ((1:ℝ)/4) ≤ |(e.corrSq : ℝ)| := by
        have h4 : (((1:ℚ)/4 : ℚ) : ℝ) ≤ ((|e.corrSq| : ℚ) : ℝ) := Rat.cast_le.mpr hq
        push_cast at h4
        exact h4
      calc (1:ℝ)/2 = Real.sqrt ((1:ℝ)/4) := by
            rw [show (1:ℝ)/4 = ((1:ℝ)/2)^2 by norm_num,
              Real.sqrt_sq (by norm_num)]
        _ ≤ Real.sqrt |(e.corrSq : ℝ)| := Real.sqrt_le_sqrt hcast
    · rw [if_neg h2] at he2
      exact absurd he2 (List.not_mem_nil e)
  · show (correlationsList df).length ≤ 20
    rw [correlationsList]
    by_cases h2 : 2 ≤ df.numericCols.length
    · rw [if_pos h2]
      exact List.length_take_le 20 _
    · rw [if_neg h2]
      simp
  · show (correlationsList df).Pairwise _
    rw [correlationsList]
    by_cases h2 : 2 ≤ df.numericCols.length
    · rw [if_pos h2]
      haveI htot : IsTotal CorrEntry (fun e1 e2 => |e2.corrSq| ≤ |e1.corrSq|) :=
        ⟨fun a b => le_total _ _⟩
      haveI htr : IsTrans CorrEntry (fun e1 e2 => |e2.corrSq| ≤ |e1.corrSq|) :=
        ⟨fun a b c h1 h2 => le_trans h2 h1⟩
      have hs := List.sorted_insertionSort
        (fun e1 e2 : CorrEntry => |e2.corrSq| ≤ |e1.corrSq|)
        ((pairsUpper df.numericCols).filterMap (fun p =>
          (corrPair p.1 p.2).map (fun r =>
            { col_a := p.1.name, col_b := p.2.name, corrSq := r })))
      exact ((hs.filter _).sublist (List.take_sublist _ _))
    · rw [if_neg h2]
      simp
  · show ((correlationsList df).map _).Nodup
    rw [correlationsList]
    by_cases h2 : 2 ≤ df.numericCols.length
    · rw [if_pos h2]
      have hnodup0 : ((df.numericCols.map Column.name)).Nodup :=
        hnamesnd.sublist (numericCols_names_sublist df)
      have hkey := pairsUpper_keyPairs_nodup Column.name df.numericCols hnodup0
      have hsub := filterMap_map_sublist
        (fun p : Column × Column => (corrPair p.1 p.2).map (fun r =>
          ({ col_a := p.1.name, col_b := p.2.name, corrSq := r } : CorrEntry)))
        (fun e => (e.col_a, e.col_b))
        (fun p => (p.1.name, p.2.name))
        (by
          intro a b hF
          obtain ⟨r, _, hmk⟩ := Option.map_eq_some'.mp hF
          rw [← hmk])
        (pairsUpper df.numericCols)
      have hent : (((pairsUpper df.numericCols).filterMap (fun p =>
          (corrPair p.1 p.2).map (fun r =>
            ({ col_a := p.1.name, col_b := p.2.name, corrSq := r } : CorrEntry)))).map
          (fun e => (e.col_a, e.col_b))).Nodup := hkey.sublist hsub
      have hperm := (List.perm_insertionSort
        (fun e1 e2 : CorrEntry => |e2.corrSq| ≤ |e1.corrSq|)
        ((pairsUpper df.numericCols).filterMap (fun p =>
          (corrPair p.1 p.2).map (fun r =>
            { col_a := p.1.name, col_b := p.2.name, corrSq := r })))).map
        (fun e => (e.col_a, e.col_b))
      have hsorted : ((List.insertionSort
          (fun e1 e2 : CorrEntry => |e2.corrSq| ≤ |e1.corrSq|)
          ((pairsUpper df.numericCols).filterMap (fun p =>
            (corrPair p.1 p.2).map (fun r =>
              { col_a := p.1.name, col_b := p.2.name, corrSq := r })))).map
          (fun e => (e.col_a, e.col_b))).Nodup := hperm.symm.nodup hent
      exact hsorted.sublist
        (((List.take_sublist 20 _).trans (List.filter_sublist _)).map _)
    · rw [if_neg h2]
      simp
  · intro e he e2 he2
    rintro ⟨ha, hb⟩
    have h1 := hidx e he
    have h2 := hidx e2 he2
    rw [ha, hb] at h2
    omega
  · intro e he
    refine ⟨?_, hidx e he⟩
    have hnd2 := hnamesnd.sublist (horder e he)
    rw [List.nodup_cons] at hnd2
    intro hee
    exact hnd2.1 (hee ▸ List.mem_cons_self _ _)

/-- Witness for C4 at the mixed frame, whose two numeric columns are
perfectly anti-correlated. -/
theorem claim4_correlations_invariant_witness :
    (analyze_dataframe dfBoolMix).correlations.length ≤ 20 :=
  (claim4_correlations_invariant dfBoolMix (by decide)).2.2.1

/-! Facts about `uniqFirst`, the first-occurrence value listing behind
`value_counts` and `nunique`. -/

/-- Membership in the first-occurrence listing is membership in the
list. -/
theorem mem_uniqFirst {α : Type} [DecidableEq α] :
    ∀ (l : List α) (a : α), a ∈ uniqFirst l ↔ a ∈ l
  | [], a => by simp [uniqFirst]
  | x :: xs, a => by
    rw [uniqFirst]
    constructor
    · intro h
      rcases List.mem_cons.mp h with rfl | h2
      · exact List.mem_cons_self _ _
      · have h3 := (mem_uniqFirst (xs.filter (fun y => y ≠ x)) a).mp h2
        exact List.mem_cons_of_mem _ (List.mem_of_mem_filter h3)
    · intro h
      by_cases hax : a = x
      · exact hax ▸ List.mem_cons_self _ _
      · rcases List.mem_cons.mp h with rfl | h2
        · exact List.mem_cons_self _ _
        · exact List.mem_cons_of_mem _ ((mem_uniqFirst _ a).mpr
            (List.mem_filter.mpr ⟨h2, by simpa using hax⟩))
termination_by l _ => l.length
decreasing_by
  all_goals simpa using Nat.lt_succ_of_le (List.length_filter_le _ _)

/-- The first-occurrence listing has no duplicates. -/
theorem nodup_uniqFirst {α : Type} [DecidableEq α] :
    ∀ l : List α, (uniqFirst l).Nodup
  | [] => by simp [uniqFirst]
  | x :: xs => by
    rw [uniqFirst, List.nodup_cons]
    refine ⟨?_, nodup_uniqFirst _⟩
    intro hx
    have h2 := (mem_uniqFirst _ x).mp hx
    have h3 := List.mem_filter.mp h2
    simp at h3
termination_by l => l.length
decreasing_by
  simpa using Nat.lt_succ_of_le (List.length_filter_le _ _)

/-- Summing the multiplicities over the distinct values recovers the
length of the list. -/
theorem sum_counts_uniqFirst {α : Type} [DecidableEq α] [BEq α] [LawfulBEq α] :
    ∀ l : List α, ((uniqFirst l).map (fun v => l.count v)).sum = l.length
  | [] => by simp [uniqFirst]
  | x :: xs => by
    rw [uniqFirst, List.map_cons, List.sum_cons]
    have hmap : (uniqFirst (xs.filter (fun y => y ≠ x))).map
          (fun v => (x :: xs).count v) =
        (uniqFirst (xs.filter (fun y => y ≠ x))).map
          (fun v => (xs.filter (fun y => y ≠ x)).count v) := by
      apply List.map_congr_left
      intro v hv
      have hvx : v ≠ x := by
        have h1 := (mem_uniqFirst _ v).mp hv
        have h2 := List.mem_filter.mp h1
        simpa using h2.2
      rw [List.count_cons_of_ne hvx,
        List.count_filter (by simpa using hvx)]
    rw [hmap, sum_counts_uniqFirst (xs.filter (fun y => y ≠ x)),
      List.count_cons_self, List.length_cons]
    have hflen : (xs.filter (fun y => y ≠ x)).length =
        List.countP (fun y => decide (y ≠ x)) xs := by
      rw [List.countP_eq_length_filter]
    have hsplit : xs.length =
        List.countP (fun y => decide (y ≠ x)) xs + xs.count x := by
      rw [List.length_eq_countP_add_countP (p := fun y => decide (y ≠ x)),
        List.count_eq_countP]
      congr 1
      apply List.countP_congr
      intro a _
      by_cases h : a = x <;> simp [h]
    omega
termination_by l => l.length
decreasing_by
  simpa using Nat.lt_succ_of_le (List.length_filter_le _ _)

/-- The first-occurrence listing counts as many values as Mathlib's
`dedup`. -/
theorem length_uniqFirst_eq_dedup {α : Type} [DecidableEq α] (l : List α) :
    (uniqFirst l).length = l.dedup.length := by
  have hperm : List.Perm (uniqFirst l) l.dedup := by
    rw [List.perm_ext_iff_of_nodup (nodup_uniqFirst l) (List.nodup_dedup l)]
    intro a
    rw [mem_uniqFirst, List.mem_dedup]
  exact hperm.length_eq

/-! Facts about `valueCounts`. -/

/-- The sorted value counts are pairwise descending in the count. -/
theorem valueCounts_sorted (l : List (Option String)) :
    List.Pairwise (fun a b : Option String × Nat => b.2 ≤ a.2) (valueCounts l) := by
  haveI : IsTotal (Option String × Nat) (fun a b => b.2 ≤ a.2) :=
    ⟨fun a b => le_total _ _⟩
  haveI : IsTrans (Option String × Nat) (fun a b => b.2 ≤ a.2) :=
    ⟨fun a b c h1 h2 => le_trans h2 h1⟩
  exact List.sorted_insertionSort _ _

/-- Every group of the value counts carries the multiplicity of its
value. -/
theorem valueCounts_mem (l : List (Option String)) :
    ∀ q ∈ valueCounts l, q.2 = l.count q.1 := by
  intro q hq
  rw [valueCounts, List.mem_insertionSort] at hq
  obtain ⟨v, _, rfl⟩ := List.mem_map.mp hq
  rfl

/-- The group multiplicities of the value counts sum to the length. -/
theorem valueCounts_sum (l : List (Option String)) :
    ((valueCounts l).map (fun q => q.2)).sum = l.length := by
  rw [valueCounts]
  have hperm := (List.perm_insertionSort
    (fun a b : Option String × Nat => b.2 ≤ a.2)
    ((uniqFirst l).map (fun v => (v, l.count v)))).map (fun q : Option String × Nat => q.2)
  rw [hperm.sum_eq, List.map_map]
  have hcomp : ((fun q : Option String × Nat => q.2) ∘ fun v => (v, l.count v)) =
      fun v => l.count v := rfl
  rw [hcomp]
  exact sum_counts_uniqFirst l

/-- Every value of the list appears as a group of the value counts. -/
theorem valueCounts_complete (l : List (Option String)) :
    ∀ v ∈ l, (v, l.count v) ∈ valueCounts l := by
  intro v hv
  rw [valueCounts, List.mem_insertionSort]
  exact List.mem_map_of_mem _ ((mem_uniqFirst l v).mpr hv)

/-! Claim C8: the categorical summary. -/

/-- Claim C8: every categorical summary entry belongs to a categorical
dtype column and reports: unique = the number of distinct non-missing
values; at most 5 top values, sorted by descending count, each carrying
its true multiplicity in the string-cast column (missing grouped under the
null value) and pct = 100 * count / max(R, 1); the listed counts sum to at
most R; and every unlisted value is no more frequent than any listed
one. -/
theorem claim8_categorical_summary (df : DataFrame) (hwf : df.WF) :
    ∀ p ∈ (analyze_dataframe df).categorical_summary, ∃ c ∈ df.cols,
      p.1 = c.name ∧ categoricalDtype c.dtype = true ∧
      p.2.unique = (c.cells.filter (fun x => !isna x)).dedup.length ∧
      p.2.top_values.length ≤ 5 ∧
      List.Pairwise (fun t1 t2 => t2.count ≤ t1.count) p.2.top_values ∧
      (∀ t ∈ p.2.top_values,
        t.pct = 100 * (t.count : ℚ) / ((max df.nrows 1 : Nat) : ℚ) ∧
        t.count = (c.cells.map cellToStr).count t.value) ∧
      (p.2.top_values.map TopValue.count).sum ≤ df.nrows ∧
      (∀ t ∈ p.2.top_values, ∀ v : Option String,
        v ∉ p.2.top_values.map TopValue.value →
          (c.cells.map cellToStr).count v ≤ t.count) := by
  intro p hp
  have hp2 : p ∈ df.categoricalCols.map
      (fun c => (c.name, catSummaryCol df.nrows c)) := hp
  obtain ⟨c, hcmem0, rfl⟩ := List.mem_map.mp hp2
  have hcf := List.mem_filter.mp hcmem0
  have hcells : c.cells.length = df.nrows := (hwf.1 c hcf.1).1
  have htotal : ((if df.nrows = 0 then 1 else df.nrows : Nat) : ℚ) =
      ((max df.nrows 1 : Nat) : ℚ) := by
    congr 1
    by_cases h : df.nrows = 0
    · simp [h]
    · rw [if_neg h]
      omega
  have htv : (catSummaryCol df.nrows c).top_values =
      ((valueCounts (c.cells.map cellToStr)).take 5).map (fun q =>
        { value := q.1, count := q.2
          pct := (q.2 : ℚ) / ((if df.nrows = 0 then 1 else df.nrows : Nat) : ℚ) * 100 }) := by
    rw [catSummaryCol]
  refine ⟨c, hcf.1, rfl, hcf.2, ?_, ?_, ?_, ?_, ?_, ?_⟩
  · show nuniqueCol c = _
    rw [nuniqueCol, length_uniqFirst_eq_dedup]
  · rw [htv, List.length_map]
    exact List.length_take_le 5 _
  · rw [htv]
    refine List.Pairwise.map _ (fun a b hab => hab) ?_
    exact (valueCounts_sorted _).sublist (List.take_sublist _ _)
  · intro t ht
    rw [htv] at ht
    obtain ⟨q, hq, rfl⟩ := List.mem_map.mp ht
    constructor
    · show (q.2 : ℚ) / _ * 100 = _
      rw [htotal]
      ring
    · show q.2 = _
      exact valueCounts_mem _ q (List.mem_of_mem_take hq)
  · rw [htv, List.map_map]
    have hsub : ((valueCounts (c.cells.map cellToStr)).take 5).map
          (fun q : Option String × Nat => q.2) =
        (((valueCounts (c.cells.map cellToStr)).map
          (fun q : Option String × Nat => q.2)).take 5) := by
      rw [List.map_take]
    have hle : ((((valueCounts (c.cells.map cellToStr)).map
          (fun q : Option String × Nat => q.2)).take 5)).sum ≤
        (((valueCounts (c.cells.map cellToStr)).map
          (fun q : Option String × Nat => q.2))).sum := by
      conv_rhs => rw [← List.take_append_drop 5
        ((valueCounts (c.cells.map cellToStr)).map (fun q => q.2))]
      rw [List.sum_append]
      exact Nat.le_add_right _ _
    calc ((((valueCounts (c.cells.map cellToStr)).take 5).map
            (fun q : Option String × Nat => q.2))).sum
        ≤ (((valueCounts (c.cells.map cellToStr)).map
            (fun q : Option String × Nat => q.2))).sum := by
          rw [hsub]; exact hle
      _ = (c.cells.map cellToStr).length := valueCounts_sum _
      _ = df.nrows := by rw [List.length_map, hcells]
  · intro t ht v hv
    rw [htv] at ht
    obtain ⟨q, hq, rfl⟩ := List.mem_map.mp ht
    show (c.cells.map cellToStr).count v ≤ q.2
    by_cases hvmem : v ∈ c.cells.map cellToStr
    · have hvc : (v, (c.cells.map cellToStr).count v) ∈
          valueCounts (c.cells.map cellToStr) := valueCounts_complete _ v hvmem
      have hnotin : (v, (c.cells.map cellToStr).count v) ∉
          (valueCounts (c.cells.map cellToStr)).take 5 := by
        intro hmem
        apply hv
        rw [htv, List.map_map]
        exact List.mem_map_of_mem _ hmem
      have hdrop : (v, (c.cells.map cellToStr).count v) ∈
          (valueCounts (c.cells.map cellToStr)).drop 5 := by
        have := (List.mem_append.mp (by
          rw [List.take_append_drop]
          exact hvc : (v, (c.cells.map cellToStr).count v) ∈
            (valueCounts (c.cells.map cellToStr)).take 5 ++
              (valueCounts (c.cells.map cellToStr)).drop 5))
        rcases this with h | h
        · exact absurd h hnotin
        · exact h
      have hpw := List.pairwise_append.mp (by
        rw [List.take_append_drop]
        exact valueCounts_sorted (c.cells.map cellToStr) :
          List.Pairwise (fun a b : Option String × Nat => b.2 ≤ a.2)
            ((valueCounts (c.cells.map cellToStr)).take 5 ++
              (valueCounts (c.cells.map cellToStr)).drop 5))
      exact hpw.2.2 q hq _ hdrop
    · rw [List.count_eq_zero.mpr hvmem]
      exact Nat.zero_le _

/-- Witness for C8 at the categorical frame with a missing cell. -/
theorem claim8_categorical_summary_witness :
    ∃ c ∈ dfCatMiss.cols,
      ("c", catSummaryCol dfCatMiss.nrows
        ⟨"c", DType.objectDt,
          [Cell.str "x", Cell.str "x", Cell.nan, Cell.str "y"]⟩).1 = c.name ∧
      categoricalDtype c.dtype = true ∧
      ("c", catSummaryCol dfCatMiss.nrows
        ⟨"c", DType.objectDt,
          [Cell.str "x", Cell.str "x", Cell.nan, Cell.str "y"]⟩).2.unique =
        (c.cells.filter (fun x => !isna x)).dedup.length ∧
      ("c", catSummaryCol dfCatMiss.nrows
        ⟨"c", DType.objectDt,
          [Cell.str "x", Cell.str "x", Cell.nan, Cell.str "y"]⟩).2.top_values.length ≤ 5 ∧
      List.Pairwise (fun t1 t2 => t2.count ≤ t1.count)
        ("c", catSummaryCol dfCatMiss.nrows
          ⟨"c", DType.objectDt,
            [Cell.str "x", Cell.str "x", Cell.nan, Cell.str "y"]⟩).2.top_values ∧
      (∀ t ∈ ("c", catSummaryCol dfCatMiss.nrows
          ⟨"c", DType.objectDt,
            [Cell.str "x", Cell.str "x", Cell.nan, Cell.str "y"]⟩).2.top_values,
        t.pct = 100 * (t.count : ℚ) / ((max dfCatMiss.nrows 1 : Nat) : ℚ) ∧
        t.count = (c.cells.map cellToStr).count t.value) ∧
      ((("c", catSummaryCol dfCatMiss.nrows
          ⟨"c", DType.objectDt,
            [Cell.str "x", Cell.str "x", Cell.nan, Cell.str "y"]⟩).2.top_values.map
          TopValue.count).sum ≤ dfCatMiss.nrows) ∧
      (∀ t ∈ ("c", catSummaryCol dfCatMiss.nrows
          ⟨"c", DType.objectDt,
            [Cell.str "x", Cell.str "x", Cell.nan, Cell.str "y"]⟩).2.top_values,
        ∀ v : Option String,
          v ∉ ("c", catSummaryCol dfCatMiss.nrows
            ⟨"c", DType.objectDt,
              [Cell.str "x", Cell.str "x", Cell.nan, Cell.str "y"]⟩).2.top_values.map
            TopValue.value →
            (c.cells.map cellToStr).count v ≤ t.count) :=
  claim8_categorical_summary dfCatMiss (by decide)
    ("c", catSummaryCol dfCatMiss.nrows
      ⟨"c", DType.objectDt, [Cell.str "x", Cell.str "x", Cell.nan, Cell.str "y"]⟩)
    (List.mem_map_of_mem (fun c => (c.name, catSummaryCol dfCatMiss.nrows c))
      (show (⟨"c", DType.objectDt,
          [Cell.str "x", Cell.str "x", Cell.nan, Cell.str "y"]⟩ : Column) ∈
        dfCatMiss.categoricalCols by decide))

/-! Claim C5: the analyzer is total on well-formed frames.  Each
exception-explicit block is shown to succeed with the value of the total
analyzer. -/

/-- A mapM whose function succeeds pointwise produces the map. -/
theorem mapM_ok {α β : Type} {f : α → Except String β} {g : α → β} :
    ∀ l : List α, (∀ x ∈ l, f x = Except.ok (g x)) →
      l.mapM f = Except.ok (l.map g) := by
  intro l
  induction l with
  | nil => intro _; rfl
  | cons x xs ih =>
    intro h
    rw [List.mapM_cons, h x (List.mem_cons_self x xs),
      ih (fun y hy => h y (List.mem_cons_of_mem x hy)), List.map_cons]
    rfl

/-- Reading a cell of a numeric column never fails. -/
theorem toRatValE_ok (dt : DType) (x : Cell) (hdt : numericDtype dt = true)
    (hok : cellOk dt x = true) : toRatValE x = Except.ok (toRatVal x) := by
  cases dt <;> cases x <;> simp_all [numericDtype, cellOk, toRatValE, toRatVal]

/-- Collecting the numeric values of a numeric column never fails. -/
theorem numValsE_ok (c : Column) (hdt : numericDtype c.dtype = true)
    (hok : ∀ x ∈ c.cells, cellOk c.dtype x = true) :
    numValsE c = Except.ok (numVals c) := by
  unfold numValsE
  rw [mapM_ok c.cells (fun x hx => toRatValE_ok c.dtype x hdt (hok x hx))]
  show Except.ok ((c.cells.map toRatVal).filterMap id) = _
  rw [List.filterMap_map, numVals]
  rfl

/-- Reading a stored cell in range never fails. -/
theorem cellAtE_ok (c : Column) (i : Nat) (h : i < c.cells.length) :
    cellAtE c i = Except.ok (c.cells.getD i Cell.none_) := by
  unfold cellAtE
  rw [List.get?_eq_getElem?, List.getElem?_eq_getElem h]
  rw [List.getD_eq_getElem _ _ h]

/-- Building the record of an existing row never fails. -/
theorem recordE_ok (df : DataFrame) (hwf : df.WF) (i : Nat) (hi : i < df.nrows) :
    recordE df i = Except.ok (df.record i) := by
  unfold recordE
  rw [mapM_ok df.cols (fun c hc => by
    rw [cellAtE_ok c i (by rw [(hwf.1 c hc).1]; exact hi)]
    rfl)]
  rfl

/-- Building an existing row never fails. -/
theorem rowE_ok (df : DataFrame) (hwf : df.WF) (i : Nat) (hi : i < df.nrows) :
    rowE df i = Except.ok (df.row i) := by
  unfold rowE
  rw [mapM_ok df.cols (fun c hc =>
    cellAtE_ok c i (by rw [(hwf.1 c hc).1]; exact hi))]
  rfl

/-- Listing all rows never fails. -/
theorem rowListE_ok (df : DataFrame) (hwf : df.WF) :
    rowListE df = Except.ok df.rowList := by
  unfold rowListE
  rw [mapM_ok (List.range df.nrows) (fun i hi =>
    rowE_ok df hwf i (List.mem_range.mp hi))]
  rfl

/-- The duplicate count never fails. -/
theorem duplicateRowsE_ok (df : DataFrame) (hwf : df.WF) :
    duplicateRowsE df = Except.ok (duplicateRows df) := by
  unfold duplicateRowsE duplicateRows
  by_cases h1 : 0 < df.nrows
  · rw [if_pos h1, if_pos h1]
    by_cases h2 : df.nrows = 0 ∨ df.ncols = 0
    · rw [if_pos h2, if_pos h2]
    · rw [if_neg h2, if_neg h2, rowListE_ok df hwf]
      rfl
  · rw [if_neg h1, if_neg h1]

/-- Describe on a numeric column never fails. -/
theorem describeColE_ok (c : Column) (hdt : numericDtype c.dtype = true)
    (hok : ∀ x ∈ c.cells, cellOk c.dtype x = true) :
    describeColE c = Except.ok (describeCol c) := by
  unfold describeColE
  rw [numValsE_ok c hdt hok]
  rfl

/-- The numeric summary never fails. -/
theorem numericSummaryE_ok (df : DataFrame) (hwf : df.WF) :
    numericSummaryE df = Except.ok (numericSummary df) := by
  unfold numericSummaryE
  rw [mapM_ok df.numericCols (fun c hc => by
    have hcf := List.mem_filter.mp hc
    rw [describeColE_ok c hcf.2 (fun x hx => (hwf.1 c hcf.1).2 x hx)]
    rfl)]
  rfl

/-- Pairing two aligned numeric columns never fails. -/
theorem pairValsE_ok (a b : Column) (hab : a.cells.length = b.cells.length)
    (hda : numericDtype a.dtype = true) (hdb : numericDtype b.dtype = true)
    (hoka : ∀ x ∈ a.cells, cellOk a.dtype x = true)
    (hokb : ∀ x ∈ b.cells, cellOk b.dtype x = true) :
    pairValsE a b = Except.ok (pairVals a b) := by
  unfold pairValsE
  rw [if_neg (by omega)]
  rw [mapM_ok (g := fun p : Cell × Cell => (toRatVal p.1, toRatVal p.2)) _
    (fun p hp => by
      obtain ⟨h1, h2⟩ := List.of_mem_zip hp
      rw [toRatValE_ok a.dtype p.1 hda (hoka p.1 h1),
        toRatValE_ok b.dtype p.2 hdb (hokb p.2 h2)]
      rfl)]
  show Except.ok (((a.cells.zip b.cells).map _).filterMap bothVals) = _
  rw [List.filterMap_map, pairVals]
  rfl

/-- The pairwise correlation never fails. -/
theorem corrPairE_ok (a b : Column) (hab : a.cells.length = b.cells.length)
    (hda : numericDtype a.dtype = true) (hdb : numericDtype b.dtype = true)
    (hoka : ∀ x ∈ a.cells, cellOk a.dtype x = true)
    (hokb : ∀ x ∈ b.cells, cellOk b.dtype x = true) :
    corrPairE a b = Except.ok (corrPair a b) := by
  unfold corrPairE corrPair
  rw [pairValsE_ok a b hab hda hdb hoka hokb]
  show (if (pairVals a b).length = 0 then _ else _) = _
  by_cases hn : (pairVals a b).length = 0
  · rw [if_pos hn, if_pos hn]
    rfl
  · rw [if_neg hn, if_neg hn]
    by_cases hv : ((pairVals a b).map (fun t => (t.1 -
          ((pairVals a b).map Prod.fst).sum / ((pairVals a b).length : ℚ)) ^ 2)).sum = 0 ∨
        ((pairVals a b).map (fun t => (t.2 -
          ((pairVals a b).map Prod.snd).sum / ((pairVals a b).length : ℚ)) ^ 2)).sum = 0
    · rw [if_pos hv, if_pos hv]
      rfl
    · rw [if_neg hv, if_neg hv]
      rfl

/-- The correlation list never fails. -/
theorem correlationsListE_ok (df : DataFrame) (hwf : df.WF) :
    correlationsListE df = Except.ok (correlationsList df) := by
  unfold correlationsListE correlationsList
  by_cases h2 : 2 ≤ df.numericCols.length
  · rw [if_pos h2, if_pos h2]
    rw [mapM_ok (g := fun p : Column × Column => (corrPair p.1 p.2).map (fun r =>
        ({ col_a := p.1.name, col_b := p.2.name, corrSq := r } : CorrEntry))) _
      (fun p hp => by
        have hsub := pairsUpper_sublist df.numericCols p hp
        have h1 := List.mem_filter.mp (hsub.subset
          (List.mem_cons_self p.1 [p.2]))
        have h2b := List.mem_filter.mp (hsub.subset
          (List.mem_cons_of_mem p.1 (List.mem_cons_self p.2 [])))
        rw [corrPairE_ok p.1 p.2
          (by rw [(hwf.1 p.1 h1.1).1, (hwf.1 p.2 h2b.1).1])
          h1.2 h2b.2 (fun x hx => (hwf.1 p.1 h1.1).2 x hx)
          (fun x hx => (hwf.1 p.2 h2b.1).2 x hx)]
        rfl)]
    show Except.ok _ = Except.ok _
    congr 2
    rw [List.filterMap_map]
    rfl
  · rw [if_neg h2, if_neg h2]

/-- The sample never fails. -/
theorem sampleRecordsE_ok (df : DataFrame) (hwf : df.WF) :
    sampleRecordsE df = Except.ok (sampleRecords df) := by
  unfold sampleRecordsE sampleRecords
  by_cases h1 : 0 < df.nrows
  · rw [if_pos h1, if_pos h1]
    rw [mapM_ok (List.range (min 5 df.nrows)) (fun i hi =>
      recordE_ok df hwf i (by
        have := List.mem_range.mp hi
        omega))]
  · rw [if_neg h1, if_neg h1]

/-- Claim C5: on every well-formed frame the exception-explicit analyzer
reaches ok with exactly the report of the total analyzer (no exception
path inside the summary computation is reachable), and a statistic is
reported as null exactly when its pandas value is NaN — never as NaN and
never by raising. -/
theorem claim5_analyzer_total (df : DataFrame) (hwf : df.WF) :
    analyzeChecked df = Except.ok (analyze_dataframe df) ∧
    (∀ v : PFloat, toFloat v = none ↔ v = PFloat.nan) := by
  constructor
  · unfold analyzeChecked
    rw [duplicateRowsE_ok df hwf, numericSummaryE_ok df hwf,
      correlationsListE_ok df hwf, sampleRecordsE_ok df hwf]
    rfl
  · intro v
    cases v <;> simp [toFloat]

/-- Witness for C5 at the categorical frame with a missing cell. -/
theorem claim5_analyzer_total_witness :
    analyzeChecked dfCatMiss = Except.ok (analyze_dataframe dfCatMiss) :=
  (claim5_analyzer_total dfCatMiss (by decide)).1

end GardEau
